import Mathlib

/-!
Verification of the cgroup stats subsystem (src/src/cgroups/stats.rs).

The Rust code is shallowly embedded: the filesystem is a partial map from
path strings to file contents, `u64` parsing is modelled on `Nat` with an
explicit `< 2^64` bound (Rust's `str::parse::<u64>`), and `anyhow` error
chains are modelled by an inductive error type with a `withContext`
wrapper mirroring `.context`/`.with_context`.  Rust `HashMap`s appear as
association lists.  Strings are compared characterwise (Rust compares the
UTF-8 bytes, which agrees on valid strings).
-/

namespace CgroupStats

/-- A filesystem snapshot: maps a path to the contents of the file there,
or `none` when the file does not exist / cannot be read. -/
def FS : Type := String → Option String

deriving instance DecidableEq for Except

/-- Rust `str::trim`: drop whitespace from both ends.  (Rust trims the full
Unicode whitespace class; the cgroup files at issue only ever carry ASCII
whitespace, which `Char.isWhitespace` covers.) -/
def strTrim (s : String) : String :=
  String.mk (((s.data.dropWhile Char.isWhitespace).reverse.dropWhile Char.isWhitespace).reverse)

/-- Rust `core::num::ParseIntError` kinds reachable from `str::parse::<u64>`. -/
inductive ParseIntError where
  | empty
  | invalidDigit
  | posOverflow
deriving DecidableEq, Repr

/-- Display text of `ParseIntError` (from Rust core). -/
def ParseIntError.display : ParseIntError → String
  | .empty => "cannot parse integer from empty string"
  | .invalidDigit => "invalid digit found in string"
  | .posOverflow => "number too large to fit in target type"

/-- Value of a list of ASCII decimal digits, most significant first. -/
def digitsVal (l : List Char) : Nat :=
  l.foldl (fun a c => a * 10 + (c.toNat - 48)) 0

/-- Rust `str::parse::<u64>`: an optional leading `+`, then one or more
ASCII digits, value below `2^64`; empty input, a non-digit, and overflow
are the three error kinds. -/
def parseU64 (s : String) : Except ParseIntError Nat :=
  if s.data.isEmpty then .error .empty
  else
    let cs := if s.data.head? = some '+' then s.data.tail else s.data
    if cs.isEmpty then .error .invalidDigit
    else if cs.all Char.isDigit then
      let n := digitsVal cs
      if n < 2 ^ 64 then .ok n else .error .posOverflow
    else .error .invalidDigit

/-- Errors produced by the stats subsystem: I/O errors identifying a path,
bare integer-parse errors, and `anyhow`-style context wrapping. -/
inductive CgError where
  | ioError (path : String)
  | parseInt (e : ParseIntError)
  | withContext (ctx : String) (inner : CgError)
deriving DecidableEq, Repr

/-- The rendered error chain, as `anyhow`'s alternate display
(`context: inner`). -/
def CgError.messageText : CgError → String
  | .ioError p => "unable to read " ++ p
  | .parseInt e => e.display
  | .withContext ctx inner => ctx ++ ": " ++ inner.messageText

/-- Modelled from the spec: `common::read_cgroup_file` lives in
`src/cgroups/common.rs`, which is not part of this repository snapshot.
Per §4.5/§7 it reads a path's full contents as text and a missing or
unreadable file is an I/O error identifying the path. -/
def read_cgroup_file (fs : FS) (path : String) : Except CgError String :=
  match fs path with
  | some content => .ok content
  | none => .error (.ioError path)

/-- Substring test on character lists: `pat` occurs somewhere in `s`. -/
def listContains (pat : List Char) : List Char → Bool
  | [] => pat.isEmpty
  | c :: rest => pat.isPrefixOf (c :: rest) || listContains pat rest

/-- Substring test on strings. -/
def strContains (s pat : String) : Bool :=
  listContains pat.data s.data

/-- Rust `str::strip_prefix` on character lists: drop `p` from the front of
`s` when it is a prefix, else `none`. -/
def chopPreL : List Char → List Char → Option (List Char)
  | s, [] => some s
  | [], _ :: _ => none
  | c :: s, p :: ps => if c = p then chopPreL s ps else none

/-- Rust `str::strip_prefix`. -/
def chopPre (s p : String) : Option String :=
  (chopPreL s.data p.data).map String.mk

/-- Rust `str::strip_suffix`. -/
def chopSuf (s p : String) : Option String :=
  (chopPreL s.data.reverse p.data.reverse).map fun l => String.mk l.reverse

/-! ## The data model (structs of stats.rs, with their `Default` impls) -/

/-- Cpu usage, `CpuUsage` in stats.rs. -/
structure CpuUsage where
  usage_total : Nat
  usage_user : Nat
  usage_kernel : Nat
  per_core_usage_total : List Nat
  per_core_usage_user : List Nat
  per_core_usage_kernel : List Nat
deriving DecidableEq, Repr

def CpuUsage.default : CpuUsage :=
  { usage_total := 0
    usage_user := 0
    usage_kernel := 0
    per_core_usage_total := []
    per_core_usage_user := []
    per_core_usage_kernel := [] }

/-- Cpu throttling, `CpuThrottling` in stats.rs. -/
structure CpuThrottling where
  periods : Nat
  throttled_periods : Nat
  throttled_time : Nat
deriving DecidableEq, Repr

def CpuThrottling.default : CpuThrottling :=
  { periods := 0
    throttled_periods := 0
    throttled_time := 0 }

/-- `CpuStats` in stats.rs. -/
structure CpuStats where
  usage : CpuUsage
  throttling : CpuThrottling
deriving DecidableEq, Repr

def CpuStats.default : CpuStats :=
  { usage := CpuUsage.default
    throttling := CpuThrottling.default }

/-- `MemoryData` in stats.rs. -/
structure MemoryData where
  usage : Nat
  max_usage : Nat
  fail_count : Nat
  limit : Nat
deriving DecidableEq, Repr

def MemoryData.default : MemoryData :=
  { usage := 0
    max_usage := 0
    fail_count := 0
    limit := 0 }

/-- `MemoryStats` in stats.rs; the `HashMap<String, u64>` is modelled as an
association list. -/
structure MemoryStats where
  memory : MemoryData
  memswap : MemoryData
  kernel : MemoryData
  kernel_tcp : MemoryData
  cache : Nat
  hierarchy : Bool
  stats : List (String × Nat)
deriving DecidableEq, Repr

def MemoryStats.default : MemoryStats :=
  { memory := MemoryData.default
    memswap := MemoryData.default
    kernel := MemoryData.default
    kernel_tcp := MemoryData.default
    cache := 0
    hierarchy := false
    stats := [] }

/-- `PidStats` in stats.rs; `limit = 0` means "no limit". -/
structure PidStats where
  current : Nat
  limit : Nat
deriving DecidableEq, Repr

def PidStats.default : PidStats :=
  { current := 0
    limit := 0 }

/-- `BlkioDeviceStat` in stats.rs. -/
structure BlkioDeviceStat where
  major : Nat
  minor : Nat
  op_type : Option String
  value : Nat
deriving DecidableEq, Repr

/-- The `Display` impl of `BlkioDeviceStat`. -/
def BlkioDeviceStat.display (s : BlkioDeviceStat) : String :=
  match s.op_type with
  | some op =>
      toString s.major ++ ":" ++ toString s.minor ++ " " ++ op ++ " " ++ toString s.value
  | none =>
      toString s.major ++ ":" ++ toString s.minor ++ " " ++ toString s.value

/-- `BlkioStats` in stats.rs. -/
structure BlkioStats where
  service_bytes : List BlkioDeviceStat
  serviced : List BlkioDeviceStat
  time : List BlkioDeviceStat
  sectors : List BlkioDeviceStat
  service_time : List BlkioDeviceStat
  wait_time : List BlkioDeviceStat
  queued : List BlkioDeviceStat
  merged : List BlkioDeviceStat
deriving DecidableEq, Repr

def BlkioStats.default : BlkioStats :=
  { service_bytes := []
    serviced := []
    time := []
    sectors := []
    service_time := []
    wait_time := []
    queued := []
    merged := [] }

/-- `HugeTlbStats` in stats.rs. -/
structure HugeTlbStats where
  usage : Nat
  max_usage : Nat
  fail_count : Nat
deriving DecidableEq, Repr

def HugeTlbStats.default : HugeTlbStats :=
  { usage := 0
    max_usage := 0
    fail_count := 0 }

/-- The `Stats` aggregate in stats.rs; the `HashMap<String, HugeTlbStats>`
is modelled as an association list. -/
structure Stats where
  cpu : CpuStats
  pids : PidStats
  hugetlb : List (String × HugeTlbStats)
  blkio : BlkioStats
  memory : MemoryStats
deriving DecidableEq, Repr

def Stats.default : Stats :=
  { cpu := CpuStats.default
    pids := PidStats.default
    hugetlb := []
    blkio := BlkioStats.default
    memory := MemoryStats.default }

/-! ## The operations of stats.rs -/

/-- An entry of a directory listing: its bare file name and whether the
entry is a directory. -/
structure DirEntry where
  name : String
  isDir : Bool
deriving DecidableEq, Repr

/-- The moniker computation inside `supported_page_sizes`: a kilobyte count
renders as whole (truncated) GB, MB or KB. -/
def sizeMoniker (size : Nat) : String :=
  if size ≥ (1 <<< 20) then toString (size >>> 20) ++ "GB"
  else if size ≥ (1 <<< 10) then toString (size >>> 10) ++ "MB"
  else toString size ++ "KB"

/-- `supported_page_sizes` in stats.rs, over a given listing of
`/sys/kernel/mm/hugepages`: skip non-directories, skip names that do not
have the `hugepages-` front or the `kB` back; the size in between is
parsed with `?`, so a parse failure aborts the whole enumeration. -/
def supported_page_sizes : List DirEntry → Except CgError (List String)
  | [] => .ok []
  | e :: rest =>
    if e.isDir = false then supported_page_sizes rest
    else
      match chopPre e.name "hugepages-" with
      | none => supported_page_sizes rest
      | some namePart =>
        match chopSuf namePart "kB" with
        | none => supported_page_sizes rest
        | some sizeStr =>
          match parseU64 sizeStr with
          | .error pe => .error (.parseInt pe)
          | .ok size => (supported_page_sizes rest).map (fun tl => sizeMoniker size :: tl)

/-- `parse_single_value` in stats.rs: read the file, trim, parse as u64;
a parse failure is wrapped with a context naming the raw value and the
path. -/
def parse_single_value (fs : FS) (file_path : String) : Except CgError Nat :=
  match read_cgroup_file fs file_path with
  | .error e => .error e
  | .ok value =>
    match parseU64 (strTrim value) with
    | .ok n => .ok n
    | .error pe =>
        .error (.withContext ("failed to parse value " ++ value ++ " from " ++ file_path)
          (.parseInt pe))

/-- `pid_stats` in stats.rs: read and parse `pids.current`; read and trim
`pids.max`; when the trimmed text is not the literal `max`, parse it,
otherwise the default limit 0 stands. -/
def pid_stats (fs : FS) (cgroup_path : String) : Except CgError PidStats :=
  match read_cgroup_file fs (cgroup_path ++ "/pids.current") with
  | .error e => .error e
  | .ok current =>
    match parseU64 (strTrim current) with
    | .error pe => .error (.withContext "failed to parse current pids" (.parseInt pe))
    | .ok cur =>
      match read_cgroup_file fs (cgroup_path ++ "/pids.max") with
      | .error e => .error e
      | .ok limitRaw =>
        let limit := strTrim limitRaw
        if limit ≠ "max" then
          match parseU64 limit with
          | .error pe => .error (.withContext "failed to parse pids limit" (.parseInt pe))
          | .ok lim => .ok { current := cur, limit := lim }
        else .ok { current := cur, limit := 0 }

/-! ## Filesystem fixtures used by witnesses and counterexamples -/

/-- A cgroup at `/cg` with numeric `pids.current` and `pids.max`. -/
def fsPidsNumeric : FS := fun p =>
  if p = "/cg/pids.current" then some "42\x0a"
  else if p = "/cg/pids.max" then some "100\x0a"
  else none

/-- A cgroup at `/cg` whose `pids.max` holds the unlimited sentinel. -/
def fsPidsUnlimited : FS := fun p =>
  if p = "/cg/pids.current" then some "42\x0a"
  else if p = "/cg/pids.max" then some "max\x0a"
  else none

/-- A cgroup at `/cg` whose `pids.current` is non-numeric. -/
def fsPidsGarbage : FS := fun p =>
  if p = "/cg/pids.current" then some "abc"
  else if p = "/cg/pids.max" then some "100\x0a"
  else none

/-- A cgroup at `/cg` whose `pids.max` is an upper-case variant of the
sentinel. -/
def fsPidsUpper : FS := fun p =>
  if p = "/cg/pids.current" then some "42\x0a"
  else if p = "/cg/pids.max" then some "MAX\x0a"
  else none

/-- A single-value file holding numeric text. -/
def fsSingleNumeric : FS := fun p =>
  if p = "/cg/pids.current" then some "12345\x0a" else none

/-- A single-value file holding non-numeric text. -/
def fsSingleGarbage : FS := fun p =>
  if p = "/cg/memory.limit_in_bytes" then some "abc\x0a" else none

end CgroupStats

namespace CgroupStats

/-! ## The claims -/

/-- C1: when `pids.current` and `pids.max` both trim to valid u64 text,
`pid_stats` succeeds with `current` parsed from `pids.current` and `limit`
parsed from `pids.max`. -/
theorem pid_stats_numeric_ok (fs : FS) (path ccur clim : String) (ncur nlim : Nat)
    (h1 : fs (path ++ "/pids.current") = some ccur)
    (h2 : parseU64 (strTrim ccur) = .ok ncur)
    (h3 : fs (path ++ "/pids.max") = some clim)
    (h4 : parseU64 (strTrim clim) = .ok nlim) :
    pid_stats fs path = .ok { current := ncur, limit := nlim } := by
  have hmax : parseU64 "max" = .error .invalidDigit := by decide
  have hne : strTrim clim ≠ "max" := by
    intro he
    rw [he, hmax] at h4
    exact Except.noConfusion h4
  simp [pid_stats, read_cgroup_file, h1, h2, h3, h4, hne]

/-- C1 witness: `pids.current = "42\n"`, `pids.max = "100\n"` give
`PidStats{current := 42, limit := 100}`. -/
theorem pid_stats_numeric_ok_witness :
    pid_stats fsPidsNumeric "/cg" = .ok { current := 42, limit := 100 } :=
  pid_stats_numeric_ok fsPidsNumeric "/cg" "42\x0a" "100\x0a" 42 100
    (by decide) (by decide) (by decide) (by decide)

/-- C2: when `pids.max` trims to the literal `max`, `pid_stats` returns
`limit = 0` (the unlimited sentinel) without parsing that file as a
number. -/
theorem pid_stats_max_sentinel (fs : FS) (path ccur clim : String) (ncur : Nat)
    (h1 : fs (path ++ "/pids.current") = some ccur)
    (h2 : parseU64 (strTrim ccur) = .ok ncur)
    (h3 : fs (path ++ "/pids.max") = some clim)
    (h4 : strTrim clim = "max") :
    pid_stats fs path = .ok { current := ncur, limit := 0 } := by
  simp [pid_stats, read_cgroup_file, h1, h2, h3, h4]

/-- C2 witness: `pids.max = "max\n"` gives `limit = 0`. -/
theorem pid_stats_max_sentinel_witness :
    pid_stats fsPidsUnlimited "/cg" = .ok { current := 42, limit := 0 } :=
  pid_stats_max_sentinel fsPidsUnlimited "/cg" "42\x0a" "max\x0a" 42
    (by decide) (by decide) (by decide) (by decide)

/-- C3: when a file's contents trim to valid u64 text, `parse_single_value`
returns exactly that integer. -/
theorem parse_single_value_ok (fs : FS) (path content : String) (n : Nat)
    (h1 : fs path = some content)
    (h2 : parseU64 (strTrim content) = .ok n) :
    parse_single_value fs path = .ok n := by
  simp [parse_single_value, read_cgroup_file, h1, h2]

/-- C3 witness: content `"12345\n"` yields `12345`. -/
theorem parse_single_value_ok_witness :
    parse_single_value fsSingleNumeric "/cg/pids.current" = .ok 12345 :=
  parse_single_value_ok fsSingleNumeric "/cg/pids.current" "12345\x0a" 12345
    (by decide) (by decide)

/-- C4: a directory entry matching `hugepages-<N>kB` contributes the
moniker of `N` in listing position, where the moniker truncates: `N ≥ 2^20`
renders as `N / 2^20` GB, `N ≥ 2^10` as `N / 2^10` MB, smaller as KB;
`hugepages-2048kB` and `hugepages-1048576kB` give `"2MB"` and `"1GB"` in
directory-listing order. -/
theorem supported_page_sizes_moniker :
    (∀ (e : DirEntry) (rest : List DirEntry) (s nstr : String) (n : Nat),
      e.isDir = true →
      chopPre e.name "hugepages-" = some s →
      chopSuf s "kB" = some nstr →
      parseU64 nstr = .ok n →
      supported_page_sizes (e :: rest)
          = (supported_page_sizes rest).map (fun tl => sizeMoniker n :: tl)
        ∧ sizeMoniker n = (if n ≥ 2 ^ 20 then toString (n / 2 ^ 20) ++ "GB"
            else if n ≥ 2 ^ 10 then toString (n / 2 ^ 10) ++ "MB"
            else toString n ++ "KB"))
    ∧ supported_page_sizes [⟨"hugepages-2048kB", true⟩, ⟨"hugepages-1048576kB", true⟩]
        = .ok ["2MB", "1GB"]
    ∧ supported_page_sizes [⟨"hugepages-1048576kB", true⟩, ⟨"hugepages-2048kB", true⟩]
        = .ok ["1GB", "2MB"]
    ∧ supported_page_sizes [⟨"hugepages-1500000kB", true⟩] = .ok ["1GB"] := by
  refine ⟨?_, by decide, by decide, by decide⟩
  intro e rest s nstr n hdir hpre hsuf hparse
  constructor
  · simp [supported_page_sizes, hdir, hpre, hsuf, hparse]
  · simp [sizeMoniker, Nat.shiftLeft_eq, Nat.shiftRight_eq_div_pow, one_mul]

/-- C4 witness: processing `hugepages-64kB` at the head of an empty
listing. -/
theorem supported_page_sizes_moniker_witness :
    supported_page_sizes [⟨"hugepages-64kB", true⟩]
        = (supported_page_sizes []).map (fun tl => sizeMoniker 64 :: tl)
      ∧ sizeMoniker 64 = (if 64 ≥ 2 ^ 20 then toString (64 / 2 ^ 20) ++ "GB"
          else if 64 ≥ 2 ^ 10 then toString (64 / 2 ^ 10) ++ "MB"
          else toString 64 ++ "KB") :=
  supported_page_sizes_moniker.1 ⟨"hugepages-64kB", true⟩ [] "64kB" "64" 64
    (by decide) (by decide) (by decide) (by decide)

/-- C5 counterexample: with `pids.current = "abc"`, `pid_stats` fails with
the fixed context `failed to parse current pids`; the rendered message
contains neither the file path (`/cg/pids.current`, nor even the bare file
name `pids.current`) nor the raw content `abc`, against the claim that it
names both. -/
theorem pid_stats_parse_error_message_counterexample :
    pid_stats fsPidsGarbage "/cg"
        = .error (.withContext "failed to parse current pids" (.parseInt .invalidDigit))
      ∧ (CgError.withContext "failed to parse current pids"
            (.parseInt .invalidDigit)).messageText
          = "failed to parse current pids: invalid digit found in string"
      ∧ strContains "failed to parse current pids: invalid digit found in string"
            "/cg/pids.current" = false
      ∧ strContains "failed to parse current pids: invalid digit found in string"
            "pids.current" = false
      ∧ strContains "failed to parse current pids: invalid digit found in string"
            "abc" = false :=
  ⟨by decide, by decide, by decide, by decide, by decide⟩

/-- C5 amended: with readable but non-numeric `pids.current`, `pid_stats`
fails with a parse error carrying the fixed context
`failed to parse current pids`; the rendered message is that context plus
the integer-parse error description, independent of the file path and of
the raw content. -/
theorem pid_stats_current_parse_error (fs : FS) (path content : String) (pe : ParseIntError)
    (h1 : fs (path ++ "/pids.current") = some content)
    (h2 : parseU64 (strTrim content) = .error pe) :
    pid_stats fs path
        = .error (.withContext "failed to parse current pids" (.parseInt pe))
      ∧ (CgError.withContext "failed to parse current pids"
            (.parseInt pe)).messageText
          = "failed to parse current pids: " ++ pe.display := by
  constructor
  · simp [pid_stats, read_cgroup_file, h1, h2]
  · rfl

/-- C5 amended witness: `pids.current = "abc"`. -/
theorem pid_stats_current_parse_error_witness :
    pid_stats fsPidsGarbage "/cg"
        = .error (.withContext "failed to parse current pids"
            (.parseInt .invalidDigit))
      ∧ (CgError.withContext "failed to parse current pids"
            (.parseInt .invalidDigit)).messageText
          = "failed to parse current pids: " ++ ParseIntError.display .invalidDigit :=
  pid_stats_current_parse_error fsPidsGarbage "/cg" "abc" .invalidDigit
    (by decide) (by decide)

/-- C6 counterexample: a directory named `hugepages-abckB` matches the
`hugepages-…kB` shape but its size part does not parse, and
`supported_page_sizes` then fails instead of ignoring the entry, against
the claim that every non-matching entry is ignored with overall success. -/
theorem supported_page_sizes_bad_size_counterexample :
    supported_page_sizes [⟨"hugepages-abckB", true⟩]
        = .error (.parseInt .invalidDigit)
      ∧ supported_page_sizes [⟨"hugepages-abckB", true⟩] ≠ .ok [] :=
  ⟨by decide, by decide⟩

/-- C6 amended: entries that are not directories, or whose names lack the
`hugepages-` front or the `kB` back, are ignored; but a directory of the
right shape whose size part does not parse makes `supported_page_sizes`
fail with that parse error. -/
theorem supported_page_sizes_nonmatching (e : DirEntry) (rest : List DirEntry) :
    ((e.isDir = false ∨ chopPre e.name "hugepages-" = none
        ∨ ∃ s, chopPre e.name "hugepages-" = some s ∧ chopSuf s "kB" = none) →
      supported_page_sizes (e :: rest) = supported_page_sizes rest)
    ∧ (∀ (s nstr : String) (pe : ParseIntError),
        e.isDir = true →
        chopPre e.name "hugepages-" = some s →
        chopSuf s "kB" = some nstr →
        parseU64 nstr = .error pe →
        supported_page_sizes (e :: rest) = .error (.parseInt pe)) := by
  constructor
  · intro h
    rcases h with h | h | ⟨s, h1, h2⟩
    · simp [supported_page_sizes, h]
    · cases hd : e.isDir
      · simp [supported_page_sizes, hd]
      · simp [supported_page_sizes, hd, h]
    · cases hd : e.isDir
      · simp [supported_page_sizes, hd]
      · simp [supported_page_sizes, hd, h1, h2]
  · intro s nstr pe hd h1 h2 h3
    simp [supported_page_sizes, hd, h1, h2, h3]

/-- C6 amended witness: a plain (non-directory) entry is skipped. -/
theorem supported_page_sizes_nonmatching_witness :
    supported_page_sizes [⟨"somefile", false⟩, ⟨"hugepages-2048kB", true⟩]
        = supported_page_sizes [⟨"hugepages-2048kB", true⟩] :=
  (supported_page_sizes_nonmatching ⟨"somefile", false⟩
      [⟨"hugepages-2048kB", true⟩]).1 (Or.inl (by decide))

/-- C7: when a file's contents do not trim to valid u64 text,
`parse_single_value` fails with an error whose rendered message contains
both the raw, untrimmed contents and the file path. -/
theorem parse_single_value_error_message (fs : FS) (path content : String)
    (pe : ParseIntError)
    (h1 : fs path = some content)
    (h2 : parseU64 (strTrim content) = .error pe) :
    ∃ err, parse_single_value fs path = .error err
      ∧ (∃ a b, err.messageText = a ++ content ++ b)
      ∧ (∃ a b, err.messageText = a ++ path ++ b) := by
  refine ⟨.withContext ("failed to parse value " ++ content ++ " from " ++ path)
    (.parseInt pe), ?_, ?_, ?_⟩
  · simp [parse_single_value, read_cgroup_file, h1, h2]
  · exact ⟨"failed to parse value ", " from " ++ path ++ ": " ++ pe.display,
      by simp only [CgError.messageText, String.append_assoc]⟩
  · exact ⟨"failed to parse value " ++ content ++ " from ", ": " ++ pe.display,
      by simp only [CgError.messageText, String.append_assoc]⟩

/-- C7 witness: content `"abc\n"` at `/cg/memory.limit_in_bytes`. -/
theorem parse_single_value_error_message_witness :
    ∃ err, parse_single_value fsSingleGarbage "/cg/memory.limit_in_bytes" = .error err
      ∧ (∃ a b, err.messageText = a ++ "abc\x0a" ++ b)
      ∧ (∃ a b, err.messageText = a ++ "/cg/memory.limit_in_bytes" ++ b) :=
  parse_single_value_error_message fsSingleGarbage "/cg/memory.limit_in_bytes"
    "abc\x0a" .invalidDigit (by decide) (by decide)

/-- C8: a `BlkioDeviceStat` renders as `major:minor op value` when the
operation type is present and `major:minor value` when absent; in
particular `8:0 Read 1024` and `8:0 2048`. -/
theorem blkio_device_stat_display :
    (∀ (s : BlkioDeviceStat) (op : String), s.op_type = some op →
      s.display = toString s.major ++ ":" ++ toString s.minor ++ " " ++ op
        ++ " " ++ toString s.value)
    ∧ (∀ s : BlkioDeviceStat, s.op_type = none →
      s.display = toString s.major ++ ":" ++ toString s.minor ++ " " ++ toString s.value)
    ∧ BlkioDeviceStat.display ⟨8, 0, some "Read", 1024⟩ = "8:0 Read 1024"
    ∧ BlkioDeviceStat.display ⟨8, 0, none, 2048⟩ = "8:0 2048" := by
  refine ⟨?_, ?_, by decide, by decide⟩
  · intro s op h
    simp [BlkioDeviceStat.display, h]
  · intro s h
    simp [BlkioDeviceStat.display, h]

/-- C8 witness: the with-operation format at `8:0 Write 512`. -/
theorem blkio_device_stat_display_witness :
    BlkioDeviceStat.display ⟨8, 0, some "Write", 512⟩
      = toString (8 : Nat) ++ ":" ++ toString (0 : Nat) ++ " " ++ "Write"
        ++ " " ++ toString (512 : Nat) :=
  blkio_device_stat_display.1 ⟨8, 0, some "Write", 512⟩ "Write" rfl

/-- C9: every default-constructed stats value is all-zero, with empty
sequences and maps and a false hierarchy flag. -/
theorem defaults_all_zero :
    CpuUsage.default = ⟨0, 0, 0, [], [], []⟩
    ∧ CpuThrottling.default = ⟨0, 0, 0⟩
    ∧ CpuStats.default = ⟨⟨0, 0, 0, [], [], []⟩, ⟨0, 0, 0⟩⟩
    ∧ MemoryData.default = ⟨0, 0, 0, 0⟩
    ∧ MemoryStats.default
        = ⟨⟨0, 0, 0, 0⟩, ⟨0, 0, 0, 0⟩, ⟨0, 0, 0, 0⟩, ⟨0, 0, 0, 0⟩, 0, false, []⟩
    ∧ PidStats.default = ⟨0, 0⟩
    ∧ BlkioStats.default = ⟨[], [], [], [], [], [], [], []⟩
    ∧ HugeTlbStats.default = ⟨0, 0, 0⟩
    ∧ Stats.default
        = ⟨⟨⟨0, 0, 0, [], [], []⟩, ⟨0, 0, 0⟩⟩, ⟨0, 0⟩, [],
            ⟨[], [], [], [], [], [], [], []⟩,
            ⟨⟨0, 0, 0, 0⟩, ⟨0, 0, 0, 0⟩, ⟨0, 0, 0, 0⟩, ⟨0, 0, 0, 0⟩, 0, false, []⟩⟩ :=
  ⟨rfl, rfl, rfl, rfl, rfl, rfl, rfl, rfl, rfl⟩

/-- C10: the sentinel comparison is exact and case-sensitive: any trimmed
`pids.max` text other than the literal `max` that does not parse as a u64
(such as `MAX`) makes `pid_stats` fail with the pids-limit parse error
rather than being treated as unlimited. -/
theorem pid_stats_sentinel_case_sensitive (fs : FS) (path ccur clim : String)
    (ncur : Nat) (pe : ParseIntError)
    (h1 : fs (path ++ "/pids.current") = some ccur)
    (h2 : parseU64 (strTrim ccur) = .ok ncur)
    (h3 : fs (path ++ "/pids.max") = some clim)
    (h4 : strTrim clim ≠ "max")
    (h5 : parseU64 (strTrim clim) = .error pe) :
    pid_stats fs path
      = .error (.withContext "failed to parse pids limit" (.parseInt pe)) := by
  simp [pid_stats, read_cgroup_file, h1, h2, h3, h4, h5]

/-- C10 witness: `pids.max = "MAX\n"` fails to parse. -/
theorem pid_stats_sentinel_case_sensitive_witness :
    pid_stats fsPidsUpper "/cg"
      = .error (.withContext "failed to parse pids limit" (.parseInt .invalidDigit)) :=
  pid_stats_sentinel_case_sensitive fsPidsUpper "/cg" "42\x0a" "MAX\x0a" 42
    .invalidDigit (by decide) (by decide) (by decide) (by decide) (by decide)

end CgroupStats
